import Mathlib

/-!
Verification of the weather-dashboard core pipeline.

The development embeds the data generation and aggregation pipeline of the
repository: `generate_weather_data` and `get_season` from
src/data_generator.py, the query functions of src/data_processor.py, and the
module-level filter code of src/app.py (lines 107-115).

Modelling conventions:
* A pandas DataFrame of weather records is a `List (WRow α)`; the app works
  at `α = ℝ` (floats are modelled as real numbers); concrete evaluations use
  `α = ℚ` through the same generic definitions.
* Dates are modelled as 0-based day offsets from 2024-01-01 (the generator's
  fixed `pd.date_range('2024-01-01', '2024-12-31')`); `dateOf` recovers the
  calendar (month, day-of-month) reading of an offset.
* The random draws of the generator (temperature noise, humidity noise, the
  per-day uniform rain gate, and the two exponential rain amounts) are
  realization functions `Nat → ℝ` passed as parameters, one value per day.
* A pandas operation that can raise is embedded with `Except WError`;
  `WError.valueError` is the generic pandas `ValueError` (e.g. `idxmax` on an
  empty series).  The error kinds named by the specification
  (`emptyDatasetError`, `invalidDateRangeError`, `invalidSeasonError`) are
  present in the error type for comparison but are never produced by the
  embedded code, which defines no such exceptions.
-/

namespace WeatherDashboard

/-- Month lengths of the fixed year 2024 (a leap year), determined by the
generator's date range `pd.date_range('2024-01-01', '2024-12-31')`. -/
def monthLengths2024 : List Nat := [31, 29, 31, 30, 31, 30, 31, 31, 30, 31, 30, 31]

/-- Number of rows produced by the generator's date range: the number of
calendar days of 2024. -/
def daysInYear : Nat := monthLengths2024.sum

/-- Walk a list of month lengths to convert a 0-based day offset into a
(month, day-of-month) pair; `m` is the 1-based number of the first month of
the remaining list. -/
def monthAndDay : Nat → Nat → List Nat → Nat × Nat
  | m, i, [] => (m, i + 1)
  | m, i, l :: ls => if i < l then (m, i + 1) else monthAndDay (m + 1) (i - l) ls

/-- Calendar (month, day-of-month) of a 0-based day offset in 2024. -/
def dateOf (i : Nat) : Nat × Nat := monthAndDay 1 i monthLengths2024

/-- Calendar month (1-12) of a 0-based day offset in 2024; embeds
`date_range.month` / `df['date'].dt.month`. -/
def monthOfDay (i : Nat) : Nat := (dateOf i).1

/-- English month names, used by pandas `Series.dt.month_name()`. -/
def month_names_list : List String :=
  ["January", "February", "March", "April", "May", "June",
   "July", "August", "September", "October", "November", "December"]

/-- Full month name of a month number (1-12); embeds `dt.month_name()`. -/
def monthName (m : Nat) : String := month_names_list.getD (m - 1) ""

/-- Length (in days) of a 2024 month given by its 1-based number. -/
def monthLength (m : Nat) : Nat := monthLengths2024.getD (m - 1) 0

/-- Calendar successor of a (month, day-of-month) pair within 2024. -/
def next_day : Nat × Nat → Nat × Nat
  | (m, d) => if d < monthLength m then (m, d + 1) else (m + 1, 1)

/-- Check that a list of calendar dates is a chain of consecutive days: each
entry is the calendar successor of the previous one. -/
def chainNext : List (Nat × Nat) → Bool
  | a :: b :: rest => decide (b = next_day a) && chainNext (b :: rest)
  | _ => true

/-- Season of a month number, transcribed from the nested `get_season` helper
in src/data_generator.py: Winter for 12/1/2, Spring for 3/4/5, Summer for
6/7/8, and Fall as the final `else` branch. -/
def get_season (month : Nat) : String :=
  if month = 12 ∨ month = 1 ∨ month = 2 then "Winter"
  else if month = 3 ∨ month = 4 ∨ month = 5 then "Spring"
  else if month = 6 ∨ month = 7 ∨ month = 8 then "Summer"
  else "Fall"

/-- Modelled from the spec: the fixed season mapping as the specification
words it, Winter={12,1,2}, Spring={3,4,5}, Summer={6,7,8}, Fall={9,10,11};
months outside 1-12 are outside the mapping's domain. -/
def specSeason (m : Nat) : String :=
  if m = 12 ∨ m = 1 ∨ m = 2 then "Winter"
  else if m = 3 ∨ m = 4 ∨ m = 5 then "Spring"
  else if m = 6 ∨ m = 7 ∨ m = 8 then "Summer"
  else if m = 9 ∨ m = 10 ∨ m = 11 then "Fall"
  else "undefined"

/-- One row of the weather DataFrame, with the columns built by
`generate_weather_data` in src/data_generator.py. -/
structure WRow (α : Type) where
  date : Nat
  temperature : α
  humidity : α
  rainfall : α
  month : Nat
  month_name : String
  season : String
  deriving DecidableEq

/-- `np.clip(x, lo, hi)`: clamp `x` into the interval `[lo, hi]`. -/
def np_clip {α : Type} [LinearOrder α] (x lo hi : α) : α := min (max x lo) hi

/-- Day `i` of the generated dataset, from src/data_generator.py:
temperature is the annual sinusoid plus per-day noise `t i`, humidity is the
shifted sinusoid plus noise `h i` clipped into [20, 100], rainfall is gated
by the uniform draw `p i` with threshold 0.6 on wet-season months (3-5 and
9-11, from `spring_fall_mask`) and 0.8 otherwise, paying out the exponential
draw `w i` (mean 5) resp. `d i` (mean 2); month, month name and season are
derived from the date. -/
noncomputable def genRow (t h p w d : Nat → ℝ) (i : Nat) : WRow ℝ :=
  let m := monthOfDay i
  { date := i
    temperature := 20 + 15 * Real.sin ((i : ℝ) / 365 * (2 * Real.pi)) + t i
    humidity := np_clip (60 + 20 * Real.sin ((i : ℝ) / 365 * (2 * Real.pi)) + h i) 20 100
    rainfall :=
      if (3 ≤ m ∧ m ≤ 5) ∨ (9 ≤ m ∧ m ≤ 11) then
        if p i > 0.6 then w i else 0
      else
        if p i > 0.8 then d i else 0
    month := m
    month_name := monthName m
    season := get_season m }

/-- `generate_weather_data()` from src/data_generator.py, for one realization
of the random draws: one row per calendar day of 2024. -/
noncomputable def generate_weather_data (t h p w d : Nat → ℝ) : List (WRow ℝ) :=
  (List.range daysInYear).map (genRow t h p w d)

theorem genRow_date (t h p w d : Nat → ℝ) (i : Nat) : (genRow t h p w d i).date = i := rfl

theorem genRow_month (t h p w d : Nat → ℝ) (i : Nat) :
    (genRow t h p w d i).month = monthOfDay i := rfl

theorem genRow_month_name (t h p w d : Nat → ℝ) (i : Nat) :
    (genRow t h p w d i).month_name = monthName (monthOfDay i) := rfl

theorem genRow_season (t h p w d : Nat → ℝ) (i : Nat) :
    (genRow t h p w d i).season = get_season (monthOfDay i) := rfl

theorem genRow_temperature (t h p w d : Nat → ℝ) (i : Nat) :
    (genRow t h p w d i).temperature
      = 20 + 15 * Real.sin ((i : ℝ) / 365 * (2 * Real.pi)) + t i := rfl

theorem genRow_humidity (t h p w d : Nat → ℝ) (i : Nat) :
    (genRow t h p w d i).humidity
      = np_clip (60 + 20 * Real.sin ((i : ℝ) / 365 * (2 * Real.pi)) + h i) 20 100 := rfl

theorem genRow_rainfall (t h p w d : Nat → ℝ) (i : Nat) :
    (genRow t h p w d i).rainfall
      = if (3 ≤ monthOfDay i ∧ monthOfDay i ≤ 5) ∨ (9 ≤ monthOfDay i ∧ monthOfDay i ≤ 11) then
          if p i > 0.6 then w i else 0
        else
          if p i > 0.8 then d i else 0 := rfl

/-- The all-zero realization of the random draws, used for concrete
instantiations. -/
noncomputable def zfun : Nat → ℝ := fun _ => 0

/-- Error values observable by a caller of the pipeline.  `valueError` is the
generic pandas `ValueError` (raised e.g. by `Series.idxmax` on an empty
series).  The remaining kinds are modelled from the spec: the specification's
error taxonomy names `EmptyDatasetError`, `InvalidDateRangeError` and
`InvalidSeasonError`, none of which is defined anywhere in the repository's
code. -/
inductive WError
  | valueError
  | emptyDatasetError
  | invalidDateRangeError
  | invalidSeasonError
  deriving DecidableEq

/-- `Series.idxmax` composed with `df.loc`: the first row attaining the
maximal value of `f` (pandas `idxmax` returns the first occurrence of the
maximum), or `none` on an empty frame (where pandas raises). -/
def idxmaxRow {α : Type} [LinearOrder α] (f : WRow α → α) : List (WRow α) → Option (WRow α)
  | [] => none
  | r :: rs => some (rs.foldl (fun best x => if f best < f x then x else best) r)

/-- `Series.idxmin` composed with `df.loc`: first row attaining the minimum. -/
def idxminRow {α : Type} [LinearOrder α] (f : WRow α → α) : List (WRow α) → Option (WRow α)
  | [] => none
  | r :: rs => some (rs.foldl (fun best x => if f x < f best then x else best) r)

/-- The dictionary returned by `get_extreme_days` in src/data_processor.py. -/
structure ExtremeDays (α : Type) where
  hottest : WRow α
  coldest : WRow α
  wettest : WRow α
  most_humid : WRow α
  deriving DecidableEq

/-- `get_extreme_days(df)` from src/data_processor.py.  On an empty frame the
very first `df['temperature'].idxmax()` raises the pandas `ValueError`
("attempt to get argmax of an empty sequence"); otherwise all four lookups
succeed. -/
def get_extreme_days {α : Type} [LinearOrder α] (df : List (WRow α)) :
    Except WError (ExtremeDays α) :=
  match idxmaxRow (fun r => r.temperature) df, idxminRow (fun r => r.temperature) df,
      idxmaxRow (fun r => r.rainfall) df, idxmaxRow (fun r => r.humidity) df with
  | some hot, some cold, some wet, some hum =>
      Except.ok { hottest := hot, coldest := cold, wettest := wet, most_humid := hum }
  | _, _, _, _ => Except.error WError.valueError

/-- The per-row comfort formula of `get_comfort_index` in
src/data_processor.py: `np.abs(t - 23) + np.maximum(0, h - 60) / 10`. -/
def comfort_index_val {α : Type} [LinearOrderedField α] (t h : α) : α :=
  |t - 23| + max 0 (h - 60) / 10

/-- `get_comfort_index(df)` from src/data_processor.py.  The function builds
the comfort column, copies the input frame (`df.copy()`), and appends the
column to the copy.  The embedding returns the pair of (the caller's frame
after the call, the returned frame); because of the copy the first component
is the unchanged input, and the returned frame is modelled as each original
row paired with its comfort value. -/
def get_comfort_index {α : Type} [LinearOrderedField α] (df : List (WRow α)) :
    List (WRow α) × List (WRow α × α) :=
  (df, df.map (fun r => (r, comfort_index_val r.temperature r.humidity)))

/-- The chronological month order hard-coded in `get_monthly_averages`. -/
def month_order : List String :=
  ["January", "February", "March", "April", "May", "June",
   "July", "August", "September", "October", "November", "December"]

/-- Column means of a group of rows: `none` models the NaN row that
`reindex` inserts for a label with no group (pandas groups are never empty,
so a group's mean exists whenever the group does). -/
def colMeans {α : Type} [LinearOrderedField α] (rows : List (WRow α)) : Option (α × α × α) :=
  match rows with
  | [] => none
  | _ :: _ =>
      some ((rows.map (fun r => r.temperature)).sum / (rows.length : α),
            (rows.map (fun r => r.humidity)).sum / (rows.length : α),
            (rows.map (fun r => r.rainfall)).sum / (rows.length : α))

/-- `get_monthly_averages(df)` from src/data_processor.py:
`df.groupby('month_name')[cols].mean()` followed by `reindex(month_order)`.
The reindexed result has exactly one row per name of `month_order`, in that
order: the group mean when the month occurs in `df`, a NaN row (`none`)
otherwise. -/
def get_monthly_averages {α : Type} [LinearOrderedField α] (df : List (WRow α)) :
    List (String × Option (α × α × α)) :=
  month_order.map (fun m => (m, colMeans (df.filter (fun r => decide (r.month_name = m)))))

/-- The module-level filter code of src/app.py (lines 107-115): start from a
copy of the dataset, keep rows inside the inclusive date range when a
complete range is given, then keep rows of the selected season when the
season filter is not "All Seasons". -/
def apply_filters {α : Type} (dr : Option (Nat × Nat)) (season : String)
    (df : List (WRow α)) : List (WRow α) :=
  let byDate :=
    match dr with
    | some se => df.filter (fun r => decide (se.1 ≤ r.date ∧ r.date ≤ se.2))
    | none => df
  if season ≠ "All Seasons" then byDate.filter (fun r => decide (r.season = season))
  else byDate

/-- Running the filter code of src/app.py as a caller observes it.  The code
performs no input validation and consists only of boolean-mask selections,
which pandas evaluates without raising for any date range, so every run ends
normally with the filtered frame. -/
def apply_filters_run {α : Type} (dr : Option (Nat × Nat)) (season : String)
    (df : List (WRow α)) : Except WError (List (WRow α)) :=
  Except.ok (apply_filters dr season df)

/-- A concrete rational-valued row used for concrete evaluations. -/
def sampleRow : WRow ℚ :=
  { date := 4, temperature := 25, humidity := 70, rainfall := 1,
    month := 1, month_name := "January", season := "Winter" }

/-- The sinusoid argument of day 91 lies in (0, π), so its sine is positive:
the base curve is above 20 °C in early April. -/
theorem sin_day91_pos : 0 < Real.sin ((91 : ℝ) / 365 * (2 * Real.pi)) := by
  have hpi := Real.pi_pos
  apply Real.sin_pos_of_pos_of_lt_pi
  · positivity
  · nlinarith

/-- The sinusoid argument of day 183 lies in (π, 2π), so its sine is
negative: the base curve is below 20 °C at mid-year. -/
theorem sin_day183_neg : Real.sin ((183 : ℝ) / 365 * (2 * Real.pi)) < 0 := by
  have hpi := Real.pi_pos
  have key : (183 : ℝ) / 365 * (2 * Real.pi) = -((364 : ℝ) / 365 * Real.pi) + 2 * Real.pi := by
    ring
  rw [key, Real.sin_add_two_pi, Real.sin_neg]
  have h : 0 < Real.sin ((364 : ℝ) / 365 * Real.pi) := by
    apply Real.sin_pos_of_pos_of_lt_pi
    · positivity
    · nlinarith
  linarith

/-- With all noise zero, the mid-year day 183 is strictly colder than day 91
(early April): the sinusoid is not warmest mid-year. -/
theorem helper_temp_183_lt_91 :
    (genRow zfun zfun zfun zfun zfun 183).temperature
      < (genRow zfun zfun zfun zfun zfun 91).temperature := by
  have h1 := sin_day91_pos
  have h2 := sin_day183_neg
  rw [genRow_temperature, genRow_temperature]
  norm_num [zfun]
  nlinarith

/-- C2: for every realization of the random draws, the generator returns a
dataset of exactly 366 rows whose dates are strictly increasing and
contiguous — the day offsets are exactly `0, 1, ..., 365`, offset 0 reads as
January 1, offset 365 as December 31, and consecutive offsets read as
consecutive calendar days of the fixed leap year 2024. -/
theorem generated_dates_contiguous_leap_year (t h p w d : Nat → ℝ) :
    (generate_weather_data t h p w d).length = 366 ∧
    (generate_weather_data t h p w d).map (fun r => r.date) = List.range 366 ∧
    dateOf 0 = (1, 1) ∧ dateOf 365 = (12, 31) ∧
    chainNext ((List.range 366).map dateOf) = true := by
  have h366 : daysInYear = 366 := by decide
  refine ⟨?_, ?_, by decide, by decide, ?_⟩
  · simp [generate_weather_data, h366]
  · have hcomp : (fun r : WRow ℝ => r.date) ∘ genRow t h p w d = fun i => i := by
      funext i
      exact genRow_date t h p w d i
    rw [generate_weather_data, h366, List.map_map, hcomp]
    simp
  · set_option maxRecDepth 4000 in decide

/-- C3: for every realization of the random draws and every row of the
generated dataset (row `i` of `generate_weather_data`, which is
`genRow _ i`), humidity lies within [20, 100] and rainfall is nonnegative;
the two hypotheses record that the exponential rain draws of the realization
are nonnegative, which holds for every sample of an exponential
distribution. -/
theorem humidity_clamped_rainfall_nonneg (t h p w d : Nat → ℝ) (i : Nat)
    (hw : 0 ≤ w i) (hd : 0 ≤ d i) :
    generate_weather_data t h p w d = (List.range daysInYear).map (genRow t h p w d) ∧
    20 ≤ (genRow t h p w d i).humidity ∧ (genRow t h p w d i).humidity ≤ 100 ∧
    0 ≤ (genRow t h p w d i).rainfall := by
  refine ⟨rfl, ?_, ?_, ?_⟩
  · simp only [genRow_humidity, np_clip]
    exact le_min (le_max_right _ _) (by norm_num)
  · simp only [genRow_humidity, np_clip]
    exact min_le_right _ _
  · rw [genRow_rainfall]
    split_ifs <;> simp [hw, hd]

/-- Witness for C3 at the all-zero realization and day 5. -/
theorem humidity_clamped_rainfall_nonneg_witness :
    (0 : ℝ) ≤ zfun 5 ∧
    (generate_weather_data zfun zfun zfun zfun zfun
        = (List.range daysInYear).map (genRow zfun zfun zfun zfun zfun) ∧
     20 ≤ (genRow zfun zfun zfun zfun zfun 5).humidity ∧
     (genRow zfun zfun zfun zfun zfun 5).humidity ≤ 100 ∧
     0 ≤ (genRow zfun zfun zfun zfun zfun 5).rainfall) :=
  ⟨le_refl 0, humidity_clamped_rainfall_nonneg zfun zfun zfun zfun zfun 5 (le_refl 0) (le_refl 0)⟩

/-- C4: for every realization and every day `i` of the generated dataset,
the row's month, month name and season are derived from the date: the month
is the calendar month of day offset `i`, it lies in 1..12, the season is
`get_season` of that month, and `get_season` agrees on 1..12 with the fixed
mapping Winter={12,1,2}, Spring={3,4,5}, Summer={6,7,8}, Fall={9,10,11}
exactly as the spec words it; in particular month 7 reads as "July" with
season "Summer". -/
theorem season_month_derived_from_date (t h p w d : Nat → ℝ) (i : Nat)
    (hi : i < daysInYear) :
    generate_weather_data t h p w d = (List.range daysInYear).map (genRow t h p w d) ∧
    (genRow t h p w d i).month = monthOfDay i ∧
    (genRow t h p w d i).month_name = monthName (monthOfDay i) ∧
    (genRow t h p w d i).season = get_season (monthOfDay i) ∧
    1 ≤ monthOfDay i ∧ monthOfDay i ≤ 12 ∧
    get_season (monthOfDay i) = specSeason (monthOfDay i) ∧
    monthName 7 = "July" ∧ get_season 7 = "Summer" := by
  have key : ∀ j, j < daysInYear →
      (1 ≤ monthOfDay j ∧ monthOfDay j ≤ 12 ∧
        get_season (monthOfDay j) = specSeason (monthOfDay j)) := by
    set_option maxRecDepth 2000 in decide
  obtain ⟨h1, h2, h3⟩ := key i hi
  exact ⟨rfl, rfl, rfl, rfl, h1, h2, h3, by decide, by decide⟩

/-- Witness for C4 at the all-zero realization and day 200 (a July day). -/
theorem season_month_derived_from_date_witness :
    200 < daysInYear ∧
    (generate_weather_data zfun zfun zfun zfun zfun
        = (List.range daysInYear).map (genRow zfun zfun zfun zfun zfun) ∧
     (genRow zfun zfun zfun zfun zfun 200).month = monthOfDay 200 ∧
     (genRow zfun zfun zfun zfun zfun 200).month_name = monthName (monthOfDay 200) ∧
     (genRow zfun zfun zfun zfun zfun 200).season = get_season (monthOfDay 200) ∧
     1 ≤ monthOfDay 200 ∧ monthOfDay 200 ≤ 12 ∧
     get_season (monthOfDay 200) = specSeason (monthOfDay 200) ∧
     monthName 7 = "July" ∧ get_season 7 = "Summer") :=
  ⟨by decide, season_month_derived_from_date zfun zfun zfun zfun zfun 200 (by decide)⟩

/-- C7 counterexample: the claim's gloss that the temperature sinusoid is
"warmest mid-year" is false — with all noise zero, the mid-year day (offset
183, July 2) is strictly colder than day offset 91 (April 1), where the
sinusoid `20 + 15·sin(2π·i/365)` is near its peak. -/
theorem base_temperature_not_warmest_mid_year :
    (genRow zfun zfun zfun zfun zfun 183).temperature
      < (genRow zfun zfun zfun zfun zfun 91).temperature :=
  helper_temp_183_lt_91

/-- C7 (amended): each day's temperature equals the base value
`20 + 15·sin(2π·i/365)` plus the day's noise term (the noise realization is
an arbitrary per-day function; the code draws it from a Gaussian of mean 0
and standard deviation 3); the sinusoid is warmest around day offset 91
(early April), not mid-year — the mid-year day 183 is strictly colder than
day 91. -/
theorem temperature_sinusoid_plus_noise (t h p w d : Nat → ℝ) (i : Nat) :
    generate_weather_data t h p w d = (List.range daysInYear).map (genRow t h p w d) ∧
    (genRow t h p w d i).temperature
      = 20 + 15 * Real.sin ((i : ℝ) / 365 * (2 * Real.pi)) + t i ∧
    (genRow zfun zfun zfun zfun zfun 183).temperature
      < (genRow zfun zfun zfun zfun zfun 91).temperature :=
  ⟨rfl, rfl, helper_temp_183_lt_91⟩

/-- C1 counterexample: on the empty subset the extreme-days query does not
raise an `EmptyDatasetError` — it raises the generic pandas `ValueError`
coming from `idxmax` on an empty series (no `EmptyDatasetError` is defined
anywhere in the repository). -/
theorem extreme_days_empty_not_emptyDatasetError :
    get_extreme_days ([] : List (WRow ℚ)) ≠ Except.error WError.emptyDatasetError ∧
    get_extreme_days ([] : List (WRow ℚ)) = Except.error WError.valueError := by
  refine ⟨?_, rfl⟩
  intro hcontra
  simp [get_extreme_days, idxmaxRow, idxminRow] at hcontra

/-- C1 (amended): on every empty subset the extreme-days query fails with an
error rather than returning a sentinel value, but the error is the generic
pandas `ValueError` raised by `idxmax`, not a dedicated `EmptyDatasetError`. -/
theorem extreme_days_empty_raises_valueError {α : Type} [LinearOrder α] :
    get_extreme_days ([] : List (WRow α)) = Except.error WError.valueError := rfl

/-- C5: for every input subset, the comfort column of the frame returned by
`get_comfort_index` is exactly `|temperature − 23| + max(0, humidity − 60)/10`
computed row-wise; in particular the formula gives exactly 0 for
temperature 23 and humidity 60, and exactly 12 for temperature 33 and
humidity 80. -/
theorem comfort_index_formula {α : Type} [LinearOrderedField α] (df : List (WRow α)) :
    (get_comfort_index df).2.map (fun pr => pr.2)
      = df.map (fun r => |r.temperature - 23| + max 0 (r.humidity - 60) / 10) ∧
    comfort_index_val (23 : ℚ) 60 = 0 ∧ comfort_index_val (33 : ℚ) 80 = 12 := by
  refine ⟨?_, ?_, ?_⟩
  · simp [get_comfort_index, comfort_index_val, List.map_map, Function.comp_def]
  · norm_num [comfort_index_val]
  · norm_num [comfort_index_val]

/-- C9: `get_comfort_index` leaves its input completely unchanged (the first
component of the embedding is the caller's frame after the call, equal to
the input because the column is added to `df.copy()`), and the returned
frame is the input's rows, each carrying all original columns unmodified,
with the comfort value appended. -/
theorem comfort_index_preserves_source {α : Type} [LinearOrderedField α]
    (df : List (WRow α)) :
    (get_comfort_index df).1 = df ∧
    (get_comfort_index df).2.map (fun pr => pr.1) = df := by
  refine ⟨rfl, ?_⟩
  simp [get_comfort_index, List.map_map, Function.comp_def]

/-- Filtering a list twice with the same predicate equals filtering once. -/
theorem filter_idem {β : Type} (p : β → Bool) (l : List β) :
    (l.filter p).filter p = l.filter p := by
  simp only [List.filter_filter]
  apply List.filter_congr
  intro a _
  cases hp : p a <;> simp [hp]

/-- C6: filtering is idempotent — applying the same date-range and season
filter to an already-filtered subset returns that subset unchanged (same
rows, same order). -/
theorem filtering_idempotent {α : Type} (dr : Option (Nat × Nat)) (season : String)
    (df : List (WRow α)) :
    apply_filters dr season (apply_filters dr season df) = apply_filters dr season df := by
  unfold apply_filters
  cases dr with
  | none =>
      by_cases hs : season = "All Seasons" <;> simp [hs, filter_idem]
  | some se =>
      by_cases hs : season = "All Seasons"
      · simp [hs, filter_idem]
      · simp [hs]
        apply List.filter_congr
        intro a _
        cases h1 : decide (a.season = season) <;> cases h2 : decide (se.1 ≤ a.date) <;>
          cases h3 : decide (a.date ≤ se.2) <;> simp [h1, h2, h3]

/-- C8 counterexample: a reversed date range (start 5, end 3) does not raise
an `InvalidDateRangeError` — the filter code completes normally and returns
the empty subset. -/
theorem reversed_range_returns_ok_empty :
    apply_filters_run (some (5, 3)) "All Seasons" [sampleRow]
        ≠ Except.error WError.invalidDateRangeError ∧
    apply_filters_run (some (5, 3)) "All Seasons" [sampleRow] = Except.ok [] := by
  have hok : apply_filters_run (some (5, 3)) "All Seasons" [sampleRow]
      = Except.ok ([] : List (WRow ℚ)) := rfl
  refine ⟨?_, hok⟩
  intro hcontra
  rw [hok] at hcontra
  exact Except.noConfusion hcontra

/-- C8 (amended): for every date range whose start is after its end, the
filter layer raises no error at all: it runs to completion and returns the
empty subset, because no row satisfies `start ≤ date ∧ date ≤ end`. -/
theorem reversed_range_no_error {α : Type} (s e : Nat) (hse : e < s) (season : String)
    (df : List (WRow α)) :
    apply_filters_run (some (s, e)) season df = Except.ok [] := by
  have hnil : df.filter (fun r => decide (s ≤ r.date ∧ r.date ≤ e)) = [] := by
    refine List.filter_eq_nil_iff.mpr ?_
    intro r _
    simp only [decide_eq_true_eq, not_and, not_le]
    intro hs
    omega
  have hrfl : apply_filters (some (s, e)) season df
      = if season ≠ "All Seasons" then
          (df.filter (fun r => decide (s ≤ r.date ∧ r.date ≤ e))).filter
            (fun r => decide (r.season = season))
        else df.filter (fun r => decide (s ≤ r.date ∧ r.date ≤ e)) := rfl
  unfold apply_filters_run
  rw [hrfl, hnil]
  split_ifs <;> rfl

/-- Witness for C8 (amended) at the concrete reversed range (5, 3). -/
theorem reversed_range_no_error_witness :
    3 < 5 ∧ apply_filters_run (some (5, 3)) "Winter" [sampleRow] = Except.ok [] :=
  ⟨by decide, reversed_range_no_error 5 3 (by decide) "Winter" [sampleRow]⟩

/-- C10: for every input subset, the monthly-averages table has exactly 12
rows whose labels are January through December in order, and every month
absent from the subset appears as a missing-value (`none`, i.e. NaN) row
rather than being omitted. -/
theorem monthly_averages_twelve_rows {α : Type} [LinearOrderedField α]
    (df : List (WRow α)) (m : String) :
    (get_monthly_averages df).map (fun pr => pr.1) = month_order ∧
    (get_monthly_averages df).length = 12 ∧
    (m ∈ month_order → df.all (fun r => r.month_name != m) = true →
      (m, (none : Option (α × α × α))) ∈ get_monthly_averages df) := by
  refine ⟨?_, ?_, ?_⟩
  · simp [get_monthly_averages, List.map_map, Function.comp_def]
  · simp [get_monthly_averages, month_order]
  · intro hm habs
    have hfil : df.filter (fun r => decide (r.month_name = m)) = [] := by
      refine List.filter_eq_nil_iff.mpr ?_
      intro r hr
      have hall := List.all_eq_true.mp habs r hr
      simpa using hall
    have hmem : (m, colMeans (df.filter (fun r => decide (r.month_name = m))))
        ∈ get_monthly_averages df :=
      List.mem_map_of_mem _ hm
    rw [hfil] at hmem
    simpa [colMeans] using hmem

/-- Witness for C10: a one-row January dataset — the monthly table has its
12 ordered rows, and its July row (July being absent) is a missing-value
row. -/
theorem monthly_averages_twelve_rows_witness :
    (get_monthly_averages [sampleRow]).map (fun pr => pr.1) = month_order ∧
    (get_monthly_averages [sampleRow]).length = 12 ∧
    ("July", (none : Option (ℚ × ℚ × ℚ))) ∈ get_monthly_averages [sampleRow] :=
  ⟨(monthly_averages_twelve_rows [sampleRow] "July").1,
   (monthly_averages_twelve_rows [sampleRow] "July").2.1,
   (monthly_averages_twelve_rows [sampleRow] "July").2.2 (by decide) (by decide)⟩

end WeatherDashboard
